import Mathlib

/-!
Verification of the NPS signal-finder core against its specification.

The development shallowly embeds the Python sources:
  `src/query_parser.py`            (QueryParser)
  `src/analyzers/simple_filter.py` (SimpleFilterAnalyzer)
  `src/analyzers/senior_gap.py`    (SeniorGapAnalyzer)
  `src/analyzers/period_comparison.py` (PeriodComparisonAnalyzer)

Modelling conventions, used consistently below:
  * Python numbers (ints and floats) are modelled as `ℚ`; the dataset's
    recommendation scores and all derived NPS values are exact decimals,
    so rational arithmetic reproduces the float arithmetic of the source
    on every input appearing in a claim.  `round(x, n)` on floats breaks
    exact-half ties towards even; the embedding rounds half up.  No claim
    and no concrete input below evaluates `round` at an exact half tie.
  * A pandas dataframe of survey rows is a `List SurveyRow`; rows whose
    date failed coercion carry `none` (pandas `NaT`), and any date
    comparison with `none` is false, as in pandas.
  * `groupby` iterates groups in ascending key order (pandas sorts group
    keys by default); within a group the rows keep their original order.
  * `sort_values` is modelled by a stable insertion sort on a boolean
    comparator mirroring the source's sort keys.
  * Optional dict entries become `Option` fields.  Python's
    `d.get(k, default)` is `Option.getD`; a truthiness test
    `if d.get(k):` on a numeric field also rejects `0`, and on a string
    field rejects `""`; both are modelled explicitly where the source
    relies on them.
-/

/-! ## Rounding and decimal formatting primitives -/

/-- Rounding to the nearest integer, written through `Rat.floor` so that
concrete values reduce inside the kernel; `ratRound_eq_round` identifies
it with Mathlib's `round`. -/
def ratRound (x : ℚ) : ℤ := Rat.floor (x + 1 / 2)

theorem ratRound_eq_round (x : ℚ) : ratRound x = round x := by
  rw [ratRound, round_eq, Rat.floor_def', Rat.floor_def]

/-- Python `round(x, 2)` (see the modelling note on half ties). -/
def round2 (x : ℚ) : ℚ := (ratRound (x * 100) : ℤ) / 100

/-- Python `round(x, 1)`, and the value recovered by
`float(s.rstrip('%'))` from a string formatted with one decimal. -/
def round1 (x : ℚ) : ℚ := (ratRound (x * 10) : ℤ) / 10

/-- Renders a rational that is an exact multiple of 1/10 the way Python
prints such a float with one decimal digit (`f"{x:.1f}"`, or `str(x)` for
a value already rounded to one decimal). -/
def fmt1 (x : ℚ) : String :=
  let n : ℤ := ratRound (x * 10)
  (if n < 0 then "-" else "") ++ toString (n.natAbs / 10) ++ "." ++ toString (n.natAbs % 10)

/-! ## The shared NPS metric

`_calculate_nps` appears verbatim in `senior_gap.py` (lines 19-37) and
`period_comparison.py` (lines 19-37): promoters are scores `>= 9`,
detractors scores `<= 6`, the result is `(promoters - detractors) /
total * 100` rounded to two decimals, and `0` on an empty sequence. -/

def promoterCount (scores : List ℚ) : ℕ :=
  (scores.filter (fun s => decide (9 ≤ s))).length

def detractorCount (scores : List ℚ) : ℕ :=
  (scores.filter (fun s => decide (s ≤ 6))).length

def calculateNps (scores : List ℚ) : ℚ :=
  if scores.length = 0 then 0
  else round2 (((promoterCount scores : ℚ) - (detractorCount scores : ℚ)) / (scores.length : ℚ) * 100)

/-! ### Facts about round2 needed for the metric bounds -/

theorem round2_mono {x y : ℚ} (h : x ≤ y) : round2 x ≤ round2 y := by
  unfold round2
  have : ratRound (x * 100) ≤ ratRound (y * 100) := by
    rw [ratRound_eq_round, ratRound_eq_round, round_eq, round_eq]
    exact Int.floor_mono (by nlinarith)
  exact div_le_div_of_nonneg_right (by exact_mod_cast this) (by norm_num)

theorem round2_intCast (n : ℤ) : round2 (n : ℚ) = n := by
  unfold round2
  rw [ratRound_eq_round,
    show ((n : ℚ) * 100) = ((n * 100 : ℤ) : ℚ) by push_cast; ring, round_intCast]
  push_cast
  ring

theorem promoterCount_le_length (scores : List ℚ) : promoterCount scores ≤ scores.length :=
  List.length_filter_le _ _

theorem detractorCount_le_length (scores : List ℚ) : detractorCount scores ≤ scores.length :=
  List.length_filter_le _ _

/-- **C1.** `_calculate_nps` returns 0 on the empty sequence, otherwise
`(promoters - detractors) / total * 100` rounded to two decimals with
promoters the scores ≥ 9 and detractors the scores ≤ 6; the result always
lies in [-100, 100], a non-empty sequence of scores all ≥ 9 yields 100 and
one of scores all ≤ 6 yields -100. -/
theorem calculateNps_spec (scores : List ℚ) :
    (scores = [] → calculateNps scores = 0) ∧
    (-100 ≤ calculateNps scores ∧ calculateNps scores ≤ 100) ∧
    (scores ≠ [] → (∀ s ∈ scores, 9 ≤ s) → calculateNps scores = 100) ∧
    (scores ≠ [] → (∀ s ∈ scores, s ≤ 6) → calculateNps scores = -100) := by
  have hround100 : round2 (100 : ℚ) = 100 := by
    have := round2_intCast 100; exact_mod_cast this
  have hroundneg : round2 (-100 : ℚ) = -100 := by
    have := round2_intCast (-100); exact_mod_cast this
  refine ⟨fun h => by simp [calculateNps, h], ?_, ?_, ?_⟩
  · rcases eq_or_ne scores.length 0 with h | h
    · simp [calculateNps, h]
    · have ht : (0 : ℚ) < (scores.length : ℚ) := by
        exact_mod_cast Nat.pos_of_ne_zero h
      have hp : (promoterCount scores : ℚ) ≤ (scores.length : ℚ) := by
        exact_mod_cast promoterCount_le_length scores
      have hd : (detractorCount scores : ℚ) ≤ (scores.length : ℚ) := by
        exact_mod_cast detractorCount_le_length scores
      have hp0 : (0 : ℚ) ≤ (promoterCount scores : ℚ) := by positivity
      have hd0 : (0 : ℚ) ≤ (detractorCount scores : ℚ) := by positivity
      have hv1 : ((promoterCount scores : ℚ) - (detractorCount scores : ℚ)) / (scores.length : ℚ) * 100 ≤ 100 := by
        rw [div_mul_eq_mul_div, div_le_iff ht]
        nlinarith
      have hv2 : (-100 : ℚ) ≤ ((promoterCount scores : ℚ) - (detractorCount scores : ℚ)) / (scores.length : ℚ) * 100 := by
        rw [div_mul_eq_mul_div, le_div_iff ht]
        nlinarith
      constructor
      · calc (-100 : ℚ) = round2 (-100) := hroundneg.symm
          _ ≤ _ := by simpa [calculateNps, h] using round2_mono hv2
      · calc calculateNps scores ≤ round2 100 := by
              simpa [calculateNps, h] using round2_mono hv1
          _ = 100 := hround100
  · intro hne hall
    have h : scores.length ≠ 0 := by simpa using hne
    have hpe : promoterCount scores = scores.length := by
      unfold promoterCount
      rw [List.filter_length_eq_length]
      intro a ha
      simpa using hall a ha
    have hde : detractorCount scores = 0 := by
      unfold detractorCount
      rw [List.length_eq_zero, List.filter_eq_nil]
      intro a ha
      have := hall a ha
      simp only [decide_eq_true_eq]
      intro hle
      linarith
    have ht : (scores.length : ℚ) ≠ 0 := by exact_mod_cast h
    have : ((promoterCount scores : ℚ) - (detractorCount scores : ℚ)) / (scores.length : ℚ) * 100 = 100 := by
      rw [hpe, hde]
      field_simp
    simp [calculateNps, h, this, hround100]
  · intro hne hall
    have h : scores.length ≠ 0 := by simpa using hne
    have hde : detractorCount scores = scores.length := by
      unfold detractorCount
      rw [List.filter_length_eq_length]
      intro a ha
      simpa using hall a ha
    have hpe : promoterCount scores = 0 := by
      unfold promoterCount
      rw [List.length_eq_zero, List.filter_eq_nil]
      intro a ha
      have := hall a ha
      simp only [decide_eq_true_eq]
      intro hle
      linarith
    have ht : (scores.length : ℚ) ≠ 0 := by exact_mod_cast h
    have : ((promoterCount scores : ℚ) - (detractorCount scores : ℚ)) / (scores.length : ℚ) * 100 = -100 := by
      rw [hpe, hde]
      field_simp
    simp [calculateNps, h, this, hroundneg]

/-- Witness for `calculateNps_spec`: concrete evaluations discharging each
hypothesis at the sequences [9, 9, 10], [0, 3, 6] and []. -/
theorem calculateNps_spec_witness :
    calculateNps [(9 : ℚ), 9, 10] = 100 ∧ calculateNps [(0 : ℚ), 3, 6] = -100 ∧
      calculateNps ([] : List ℚ) = 0 :=
  ⟨(calculateNps_spec [(9 : ℚ), 9, 10]).2.2.1 (by decide) (by
      intro s hs
      fin_cases hs <;> norm_num),
   (calculateNps_spec [(0 : ℚ), 3, 6]).2.2.2 (by decide) (by
      intro s hs
      fin_cases hs <;> norm_num),
   (calculateNps_spec ([] : List ℚ)).1 rfl⟩

/-! ## Data model

`SurveyRow` models one row of the raw dataframe.  Column names:
`처리일` (processing date, `none` when pandas date coercion produced
`NaT`), `추천지수` (recommendation score), `담당자` / `담당자ID` (agent
display name / identifier), `대리점명` (dealer), `매장명` (store),
`마케팅팀명` (marketing team), `시니어여부 == 'Y'` (senior flag). -/

/-- A calendar date, as produced by `pd.Timestamp` / the parser's
`YYYY-MM-DD` strings. -/
structure DateYMD where
  y : ℕ
  m : ℕ
  d : ℕ
deriving DecidableEq, Repr

/-- Calendar order on dates (pandas timestamp comparison). -/
def dateLe (a b : DateYMD) : Bool :=
  decide (a.y < b.y ∨ (a.y = b.y ∧ (a.m < b.m ∨ (a.m = b.m ∧ a.d ≤ b.d))))

def dateLt (a b : DateYMD) : Bool :=
  decide (a.y < b.y ∨ (a.y = b.y ∧ (a.m < b.m ∨ (a.m = b.m ∧ a.d < b.d))))

/-- `calendar.monthrange(y, m)[1]`: the number of days of month `m` of
year `y`.  Python raises on a month outside 1..12; no claim evaluates the
embedding there, so the function is left total with the December value. -/
def isLeapYear (y : ℕ) : Bool := decide ((y % 4 = 0 ∧ y % 100 ≠ 0) ∨ y % 400 = 0)

def daysInMonth (y m : ℕ) : ℕ :=
  if m = 2 then (if isLeapYear y then 29 else 28)
  else if m = 4 ∨ m = 6 ∨ m = 9 ∨ m = 11 then 30
  else 31

/-- `date + pd.Timedelta(days=1)` for a valid calendar date. -/
def nextDay (e : DateYMD) : DateYMD :=
  if e.d < daysInMonth e.y e.m then ⟨e.y, e.m, e.d + 1⟩
  else if e.m < 12 then ⟨e.y, e.m + 1, 1⟩
  else ⟨e.y + 1, 1, 1⟩

structure SurveyRow where
  procDate : Option DateYMD
  score : ℚ
  agent : String
  agentId : String
  dealer : String
  store : String
  team : String
  senior : Bool
deriving DecidableEq, Repr

/-! ## FilterSpec

The dictionary produced by `QueryParser.parse` and edited by the UI
override panel.  The enumerated string codes of the source
(`'below'`/`'above'`, `'increase'`/`'decrease'`,
`'avg'`/`'below_avg'`/`'custom:N'`) become small inductives; the
`'custom:N'` string carries its parsed numeric payload. -/

inductive NpsCmp where
  | below
  | above
deriving DecidableEq, Repr

inductive Trend where
  | increase
  | decrease
deriving DecidableEq, Repr

inductive SeniorThreshold where
  | avg
  | belowAvg
  | custom (v : ℕ)
deriving DecidableEq, Repr

/-- `comparison_periods`: either two closed date ranges with display
labels, or the parser's ERROR dictionary
`{'error': msg, 'period1_label': '오류', 'period2_label': '오류'}`. -/
inductive CompPeriods where
  | periods (p1s p1e p2s p2e : DateYMD) (label1 label2 : String)
  | error (msg label1 label2 : String)
deriving DecidableEq, Repr

structure FilterSpec where
  analysis_month : Option String := none
  team : Option String := none
  dealer_name : Option String := none
  store_name : Option String := none
  nps_target : Option ℚ := none
  nps_comparison : Option NpsCmp := none
  senior_threshold : Option SeniorThreshold := none
  min_responses : Option ℕ := none
  min_responses_period1 : Option ℕ := none
  min_responses_period2 : Option ℕ := none
  trend : Option Trend := none
  comparison_periods : Option CompPeriods := none
  analysis_type : String := "general"
deriving DecidableEq, Repr

/-- Python truthiness of an optional string field (`if filters.get(k):`
rejects both a missing key and an empty string). -/
def strTruthy : Option String → Bool
  | some s => !s.isEmpty
  | none => false

/-! ## Stable sort on a boolean comparator (models `sort_values`) -/

def insertLe {α : Type} (le : α → α → Bool) (a : α) : List α → List α
  | [] => [a]
  | b :: bs => if le a b then a :: b :: bs else b :: insertLe le a bs

def sortByLe {α : Type} (le : α → α → Bool) : List α → List α
  | [] => []
  | a :: as => insertLe le a (sortByLe le as)

theorem mem_insertLe {α : Type} (le : α → α → Bool) (a x : α) (l : List α) :
    x ∈ insertLe le a l ↔ x = a ∨ x ∈ l := by
  induction l with
  | nil => simp [insertLe]
  | cons b bs ih =>
      by_cases h : le a b
      · simp [insertLe, h]
      · simp only [insertLe, if_neg h, List.mem_cons, ih]
        tauto

theorem mem_sortByLe {α : Type} (le : α → α → Bool) (x : α) (l : List α) :
    x ∈ sortByLe le l ↔ x ∈ l := by
  induction l with
  | nil => simp [sortByLe]
  | cons a as ih => simp [sortByLe, mem_insertLe, ih]

/-- Lexicographic key comparison on strings, used for the group order of
`groupby` (pandas sorts group keys ascending by default). -/
def strLe (a b : String) : Bool := decide (a ≤ b)

def strLt (a b : String) : Bool := decide (a < b)

/-- The ascending-key group order produced by `df.groupby(keys)`:
distinct keys of the rows, sorted ascending. -/
def groupedKeys {κ : Type} [DecidableEq κ] (keyLe : κ → κ → Bool)
    (key : SurveyRow → κ) (rows : List SurveyRow) : List κ :=
  sortByLe keyLe ((rows.map key).dedup)

theorem mem_groupedKeys {κ : Type} [DecidableEq κ] (keyLe : κ → κ → Bool)
    (key : SurveyRow → κ) (rows : List SurveyRow) (k : κ) :
    k ∈ groupedKeys keyLe key rows ↔ ∃ r ∈ rows, key r = k := by
  unfold groupedKeys
  rw [mem_sortByLe, List.mem_dedup, List.mem_map]

/-! ## Query parser: `_extract_comparison_periods` (`query_parser.py` 216-312)

The three regular expressions of the source are embedded as explicit
scanners over the character list of the question.  Each scanner tries to
match at every position from the left, as `re.search` does; at one
position a `\d+` group is matched maximally, which coincides with the
regex semantics because every `(\d+)` in these patterns is followed by a
non-digit literal, so no backtracking into the digit run can succeed. -/

def digitsToNat (ds : List Char) : ℕ :=
  ds.foldl (fun n c => 10 * n + (c.toNat - '0'.toNat)) 0

/-- Matches a maximal non-empty digit run (`\d+`) and returns its value
and the rest. -/
def readNat (cs : List Char) : Option (ℕ × List Char) :=
  let ds := cs.takeWhile Char.isDigit
  if ds.isEmpty then none
  else some (digitsToNat ds, cs.dropWhile Char.isDigit)

/-- `\s*` -/
def skipWs (cs : List Char) : List Char := cs.dropWhile Char.isWhitespace

def expectChar (c : Char) : List Char → Option (List Char)
  | x :: rest => if x = c then some rest else none
  | [] => none

def expectStr : List Char → List Char → Option (List Char)
  | [], cs => some cs
  | p :: ps, c :: cs => if c = p then expectStr ps cs else none
  | _ :: _, [] => none

/-- One-position match of pattern 1, `(\d+)월\s*대비\s*(\d+)월`. -/
def matchP1At (cs : List Char) : Option (ℕ × ℕ) := do
  let (m1, cs) ← readNat cs
  let cs ← expectChar '월' cs
  let cs := skipWs cs
  let cs ← expectStr ['대', '비'] cs
  let cs := skipWs cs
  let (m2, cs) ← readNat cs
  let _ ← expectChar '월' cs
  pure (m1, m2)

def findPattern1 : List Char → Option (ℕ × ℕ)
  | [] => none
  | c :: rest =>
      match matchP1At (c :: rest) with
      | some r => some r
      | none => findPattern1 rest

/-- One-position match of pattern 2, `(\d+)~(\d+)월\s*대비\s*(\d+)월`. -/
def matchP2At (cs : List Char) : Option (ℕ × ℕ × ℕ) := do
  let (m1, cs) ← readNat cs
  let cs ← expectChar '~' cs
  let (m2, cs) ← readNat cs
  let cs ← expectChar '월' cs
  let cs := skipWs cs
  let cs ← expectStr ['대', '비'] cs
  let cs := skipWs cs
  let (m3, cs) ← readNat cs
  let _ ← expectChar '월' cs
  pure (m1, m2, m3)

def findPattern2 : List Char → Option (ℕ × ℕ × ℕ)
  | [] => none
  | c :: rest =>
      match matchP2At (c :: rest) with
      | some r => some r
      | none => findPattern2 rest

/-- One-position match of pattern 3,
`(\d+)일\s*(?:누적\s*)?대비\s*(\d+)일`.  The optional `누적` group is
committed when present: skipping it cannot recover a match because `누`
never starts `대비`. -/
def matchP3At (cs : List Char) : Option (ℕ × ℕ) := do
  let (d1, cs) ← readNat cs
  let cs ← expectChar '일' cs
  let cs := skipWs cs
  let cs := match expectStr ['누', '적'] cs with
    | some cs2 => skipWs cs2
    | none => cs
  let cs ← expectStr ['대', '비'] cs
  let cs := skipWs cs
  let (d2, cs) ← readNat cs
  let _ ← expectChar '일' cs
  pure (d1, d2)

def findPattern3 : List Char → Option (ℕ × ℕ)
  | [] => none
  | c :: rest =>
      match matchP3At (c :: rest) with
      | some r => some r
      | none => findPattern3 rest

/-- One-position match of `(\d{4})년\s*(\d{1,2})월` on the analysis-month
label.  `\d{1,2}` is greedy: two digits are preferred when the following
character still allows `월`. -/
def matchYearMonthAt (cs : List Char) : Option (ℕ × ℕ) := do
  match cs with
  | a :: b :: c :: d :: rest =>
      if a.isDigit ∧ b.isDigit ∧ c.isDigit ∧ d.isDigit then do
        let rest ← expectChar '년' rest
        let rest := skipWs rest
        let year := digitsToNat [a, b, c, d]
        match rest with
        | e :: f :: rest2 =>
            if e.isDigit ∧ f.isDigit ∧ rest2.head? = some '월' then
              pure (year, digitsToNat [e, f])
            else if e.isDigit ∧ f = '월' then
              pure (year, digitsToNat [e])
            else none
        | [e] => none
        | [] => none
      else none
  | _ => none

def findYearMonth : List Char → Option (ℕ × ℕ)
  | [] => none
  | c :: rest =>
      match matchYearMonthAt (c :: rest) with
      | some r => some r
      | none => findYearMonth rest

/-- `QueryParser._extract_comparison_periods` (`query_parser.py`
216-312): the three patterns are tried in order and the first match
wins; the day pattern with no analysis month yields the ERROR
dictionary. -/
def extractComparisonPeriods (question : String) (analysisMonth : Option String) :
    Option CompPeriods :=
  match findPattern1 question.toList with
  | some (baseMonth, compareMonth) =>
      let baseYear := 2025
      let compareYear := if compareMonth ≤ 3 then 2026 else 2025
      some (.periods ⟨baseYear, baseMonth, 1⟩
        ⟨baseYear, baseMonth, daysInMonth baseYear baseMonth⟩
        ⟨compareYear, compareMonth, 1⟩
        ⟨compareYear, compareMonth, daysInMonth compareYear compareMonth⟩
        (toString baseMonth ++ "월") (toString compareMonth ++ "월"))
  | none =>
  match findPattern2 question.toList with
  | some (startMonth, endMonth, compareMonth) =>
      let baseYear := 2025
      let compareYear := if compareMonth ≤ 3 then 2026 else 2025
      some (.periods ⟨baseYear, startMonth, 1⟩
        ⟨baseYear, endMonth, daysInMonth baseYear endMonth⟩
        ⟨compareYear, compareMonth, 1⟩
        ⟨compareYear, compareMonth, daysInMonth compareYear compareMonth⟩
        (toString startMonth ++ "~" ++ toString endMonth ++ "월")
        (toString compareMonth ++ "월"))
  | none =>
  match findPattern3 question.toList with
  | some (baseDay, compareDay) =>
      match analysisMonth with
      | some am =>
          match findYearMonth am.toList with
          | some (year, month) =>
              let lastDay := daysInMonth year month
              if baseDay > lastDay ∨ compareDay > lastDay then none
              else
                some (.periods ⟨year, month, 1⟩ ⟨year, month, baseDay⟩
                  ⟨year, month, 1⟩ ⟨year, month, compareDay⟩
                  (toString month ++ "월 " ++ toString baseDay ++ "일 누적")
                  (toString month ++ "월 " ++ toString compareDay ++ "일 누적"))
          | none => none
      | none => some (.error "분석월을 선택해주세요" "오류" "오류")
  | none => none

/-! ## Query parser: `get_filter_summary` (`query_parser.py` 357-399) -/

/-- Python truthiness of an optional numeric field:
`if filters.get(k):` rejects both a missing key and the value 0. -/
def qTruthy : Option ℚ → Bool
  | some v => decide (v ≠ 0)
  | none => false

def natTruthy : Option ℕ → Bool
  | some v => decide (v ≠ 0)
  | none => false

/-- The `type_names` table.  `parse` only produces the five keys below;
on any other key the source raises `KeyError`, which no claim reaches. -/
def typeNameFor (t : String) : String :=
  if t = "senior_gap" then "시니어 GAP 분석"
  else if t = "period_comparison" then "기간별 비교"
  else if t = "simple_filter" then "단순 필터 분석"
  else if t = "store_analysis" then "매장 분석"
  else if t = "general" then "일반 분석"
  else ""

def seniorThresholdSegment : SeniorThreshold → String
  | .avg => "시니어 비중: 평균 이상"
  | .belowAvg => "시니어 비중: 평균 이하"
  | .custom v => "시니어 비중: " ++ toString v ++ "% 이상"

/-- The list `summary` built by `get_filter_summary` before joining. -/
def getFilterSummarySegments (f : FilterSpec) : List String :=
  (if strTruthy f.analysis_month then ["분석월: " ++ f.analysis_month.getD ""] else []) ++
  (if strTruthy f.team then ["팀: " ++ f.team.getD ""] else []) ++
  (if qTruthy f.nps_target then
    ["NPS 목표: " ++ toString (f.nps_target.getD 0) ++ "% " ++
      (if f.nps_comparison = some NpsCmp.below then "미만" else "이상")]
   else []) ++
  (match f.senior_threshold with
   | some st => [seniorThresholdSegment st]
   | none => []) ++
  (if natTruthy f.min_responses then
    ["최소 응답수: " ++ toString (f.min_responses.getD 0) ++ "건"] else []) ++
  (if strTruthy f.store_name then ["매장: " ++ f.store_name.getD ""] else []) ++
  (if !f.analysis_type.isEmpty then ["분석 유형: " ++ typeNameFor f.analysis_type] else [])

def getFilterSummary (f : FilterSpec) : String :=
  let segs := getFilterSummarySegments f
  if segs.isEmpty then "조건 없음" else String.intercalate " | " segs

/-! ## Claim C3: the month-range comparison pattern -/

/-- **C3 (failing input).** On `"9~12월 대비 1월"` the extraction does
not produce the range `Sep 1 – Dec 31`: pattern 1's regex already matches
the tail `"12월 대비 1월"` of every string the range pattern 2 would
match, so pattern 2 is unreachable and the first range collapses to the
single month Mb (here December). -/
theorem extractComparisonPeriods_range_shadowed :
    extractComparisonPeriods "9~12월 대비 1월" none =
      some (.periods ⟨2025, 12, 1⟩ ⟨2025, 12, 31⟩ ⟨2026, 1, 1⟩ ⟨2026, 1, 31⟩
        "12월" "1월") ∧
    findPattern2 "9~12월 대비 1월".toList = some (9, 12, 1) := by
  constructor <;> rfl

/-! ## Claim C10: rendering of the NPS target in the filter summary -/

/-- **C10 (counterexample).** A `FilterSpec` with `nps_target` present
and equal to 0 does not get an NPS-target segment: `get_filter_summary`
guards the segment with `if filters.get('nps_target'):`, and Python's
truthiness conflates 0 with absence. -/
theorem getFilterSummary_zero_target_dropped :
    getFilterSummarySegments
        { nps_target := some 0, nps_comparison := some NpsCmp.below,
          min_responses := some 5, analysis_type := "simple_filter" } =
      ["최소 응답수: 5건", "분석 유형: 단순 필터 분석"] ∧
    "NPS 목표: 0% 미만" ∉ getFilterSummarySegments
        { nps_target := some 0, nps_comparison := some NpsCmp.below,
          min_responses := some 5, analysis_type := "simple_filter" } ∧
    getFilterSummary
        { nps_target := some 0, nps_comparison := some NpsCmp.below,
          min_responses := some 5, analysis_type := "simple_filter" } =
      "최소 응답수: 5건 | 분석 유형: 단순 필터 분석" := by
  refine ⟨rfl, ?_, rfl⟩
  decide

/-- **C10 (amended).** For every `FilterSpec` whose `nps_target` is
present and non-zero, `get_filter_summary` renders the NPS-target field
in its segment list (a zero target, however, renders nothing, exactly
like absence); the function reads the spec purely and cannot mutate it. -/
theorem getFilterSummary_nps_target_rendered (f : FilterSpec) (v : ℚ)
    (hv : f.nps_target = some v) (hnz : v ≠ 0) :
    ("NPS 목표: " ++ toString v ++ "% " ++
        (if f.nps_comparison = some NpsCmp.below then "미만" else "이상")) ∈
      getFilterSummarySegments f := by
  unfold getFilterSummarySegments
  have hq : qTruthy f.nps_target = true := by simp [qTruthy, hv, hnz]
  rw [hq, hv]
  simp

/-- Witness for `getFilterSummary_nps_target_rendered` at a concrete
spec with target 87 below. -/
theorem getFilterSummary_nps_target_rendered_witness :
    ("NPS 목표: 87% 미만") ∈ getFilterSummarySegments
      { nps_target := some 87, nps_comparison := some NpsCmp.below } := by
  have h := getFilterSummary_nps_target_rendered
    { nps_target := some 87, nps_comparison := some NpsCmp.below } 87 rfl (by norm_num)
  simpa using h

/-! ## Simple Filter analyzer (`simple_filter.py`)

`_analyze_by_tcrew` groups by (마케팅팀명, 대리점명, 매장명, 담당자),
derives counts and a 1-decimal NPS plus the share of the store total,
filters by `filters.get('min_responses_period1', 5)` and by the NPS
target when present, and sorts ascending by (team, dealer, store,
NPS value).  The display strings `NPS(%)` / share are `str(x) + "%"` of
the already-1-decimal values; the insights re-parse them with
`float(s.rstrip('%'))`, recovering exactly the stored value, so the
embedding keeps the numeric value on the row and derives the string. -/

structure SFRow where
  team : String
  dealer : String
  store : String
  agent : String
  count : ℕ
  promoters : ℕ
  detractors : ℕ
  npsValue : ℚ
  shareValue : ℚ
deriving DecidableEq, Repr

def sfDefaultRow : SFRow := ⟨"", "", "", "", 0, 0, 0, 0, 0⟩

def key4 (r : SurveyRow) : String × String × String × String :=
  (r.team, r.dealer, r.store, r.agent)

def key3 (r : SurveyRow) : String × String × String :=
  (r.team, r.dealer, r.store)

def key4Le (a b : String × String × String × String) : Bool :=
  if a.1 ≠ b.1 then strLt a.1 b.1
  else if a.2.1 ≠ b.2.1 then strLt a.2.1 b.2.1
  else if a.2.2.1 ≠ b.2.2.1 then strLt a.2.2.1 b.2.2.1
  else strLe a.2.2.2 b.2.2.2

def key3Le (a b : String × String × String) : Bool :=
  if a.1 ≠ b.1 then strLt a.1 b.1
  else if a.2.1 ≠ b.2.1 then strLt a.2.1 b.2.1
  else strLe a.2.2 b.2.2

/-- `store_total` of `_analyze_by_tcrew`: response count of the whole
store (the grouping key is always present in the dict there, so the
`.get` default is never taken). -/
def sfStoreTotal (rows : List SurveyRow) (k : String × String × String) : ℕ :=
  (rows.filter (fun r => decide (key3 r = k))).length

def sfBuildRow (rows : List SurveyRow) (k : String × String × String × String) : SFRow :=
  let g := rows.filter (fun r => decide (key4 r = k))
  let cnt := g.length
  let p := promoterCount (g.map (·.score))
  let d := detractorCount (g.map (·.score))
  let npsV := round1 (((p : ℚ) - (d : ℚ)) / (cnt : ℚ) * 100)
  let st := sfStoreTotal rows (k.1, k.2.1, k.2.2.1)
  let share := round1 ((cnt : ℚ) / (st : ℚ) * 100)
  ⟨k.1, k.2.1, k.2.2.1, k.2.2.2, cnt, p, d, npsV, share⟩

def sfGrouped (rows : List SurveyRow) : List SFRow :=
  (groupedKeys key4Le key4 rows).map (sfBuildRow rows)

/-- The two filter stages of `_analyze_by_tcrew` (lines 89-101).  The
minimum-response bound is `filters.get('min_responses_period1', 5)`: the
generic `min_responses` field is not consulted.  (`parse` always stores a
`nps_comparison` key next to a present `nps_target`; the `.get` default
`'below'` is modelled by `Option.getD`.) -/
def sfAfterFilters (rows : List SurveyRow) (f : FilterSpec) : List SFRow :=
  let minResponses := f.min_responses_period1.getD 5
  let g1 := (sfGrouped rows).filter (fun r => decide (minResponses ≤ r.count))
  match f.nps_target with
  | some t =>
      match f.nps_comparison.getD .below with
      | .below => g1.filter (fun r => decide (r.npsValue < t))
      | .above => g1.filter (fun r => decide (t ≤ r.npsValue))
  | none => g1

def sfSortLe (a b : SFRow) : Bool :=
  if a.team ≠ b.team then strLt a.team b.team
  else if a.dealer ≠ b.dealer then strLt a.dealer b.dealer
  else if a.store ≠ b.store then strLt a.store b.store
  else decide (a.npsValue ≤ b.npsValue)

/-- The per-agent table returned by `_analyze_by_tcrew`. -/
def sfByTcrew (rows : List SurveyRow) (f : FilterSpec) : List SFRow :=
  sortByLe sfSortLe (sfAfterFilters rows f)

/-- The `nps_values` array returned alongside the per-agent table. -/
def sfNpsValues (rows : List SurveyRow) (f : FilterSpec) : List ℚ :=
  (sfByTcrew rows f).map (·.npsValue)

/-! `_analyze_by_store` (lines 117-164): one grouping level up, same two
filters, same sort. -/

structure SFStoreRow where
  team : String
  dealer : String
  store : String
  count : ℕ
  promoters : ℕ
  detractors : ℕ
  npsValue : ℚ
deriving DecidableEq, Repr

def sfDefaultStoreRow : SFStoreRow := ⟨"", "", "", 0, 0, 0, 0⟩

def sfBuildStoreRow (rows : List SurveyRow) (k : String × String × String) : SFStoreRow :=
  let g := rows.filter (fun r => decide (key3 r = k))
  let cnt := g.length
  let p := promoterCount (g.map (·.score))
  let d := detractorCount (g.map (·.score))
  let npsV := round1 (((p : ℚ) - (d : ℚ)) / (cnt : ℚ) * 100)
  ⟨k.1, k.2.1, k.2.2, cnt, p, d, npsV⟩

def sfStoreSortLe (a b : SFStoreRow) : Bool :=
  if a.team ≠ b.team then strLt a.team b.team
  else if a.dealer ≠ b.dealer then strLt a.dealer b.dealer
  else if a.store ≠ b.store then strLt a.store b.store
  else decide (a.npsValue ≤ b.npsValue)

def sfByStore (rows : List SurveyRow) (f : FilterSpec) : List SFStoreRow :=
  let minResponses := f.min_responses_period1.getD 5
  let g0 := (groupedKeys key3Le key3 rows).map (sfBuildStoreRow rows)
  let g1 := g0.filter (fun r => decide (minResponses ≤ r.count))
  let g2 := match f.nps_target with
    | some t =>
        match f.nps_comparison.getD .below with
        | .below => g1.filter (fun r => decide (r.npsValue < t))
        | .above => g1.filter (fun r => decide (t ≤ r.npsValue))
    | none => g1
  sortByLe sfStoreSortLe g2

/-! ### The four-band status classification

`get_status` is defined inside `_get_store_tcrew_detail`
(`simple_filter.py` 214-222); the identical banding appears inline in
`period_comparison._get_store_tcrew_detail` (lines 567-574). -/

inductive Status where
  | excellent
  | good
  | caution
  | needsImprovement
deriving DecidableEq, Repr

def getStatus (diff : ℚ) : Status :=
  if 5 ≤ diff then .excellent
  else if 0 ≤ diff then .good
  else if -5 ≤ diff then .caution
  else .needsImprovement

/-- **C8.** The four-band status classification is total and its bands
partition the delta line without overlap at the boundaries:
delta ≥ 5 ↔ excellent, 0 ≤ delta < 5 ↔ good, -5 ≤ delta < 0 ↔ caution,
delta < -5 ↔ needs-improvement; in particular delta = 5 is excellent,
delta = 0 is good and delta = -5 is caution. -/
theorem getStatus_bands (d : ℚ) :
    (getStatus d = .excellent ↔ 5 ≤ d) ∧
    (getStatus d = .good ↔ 0 ≤ d ∧ d < 5) ∧
    (getStatus d = .caution ↔ -5 ≤ d ∧ d < 0) ∧
    (getStatus d = .needsImprovement ↔ d < -5) ∧
    getStatus 5 = .excellent ∧ getStatus 0 = .good ∧ getStatus (-5) = .caution := by
  refine ⟨?_, ?_, ?_, ?_, by decide, by decide, by decide⟩ <;>
    unfold getStatus <;> split_ifs with h1 h2 h3 <;>
    constructor <;> intro hc <;>
    first
      | linarith
      | (exact absurd rfl (by intro hco; cases hco))
      | (constructor <;> linarith)
      | (exfalso; cases hc)

/-! ### Simple Filter insights (`_generate_insights`, lines 244-309) -/

def qListMin : List ℚ → ℚ
  | [] => 0
  | a :: as => as.foldl min a

def qListMax : List ℚ → ℚ
  | [] => 0
  | a :: as => as.foldl max a

theorem foldl_min_le_init (a : ℚ) (l : List ℚ) : l.foldl min a ≤ a := by
  induction l generalizing a with
  | nil => simp
  | cons b bs ih => exact le_trans (ih (min a b)) (min_le_left a b)

theorem foldl_min_le_mem (a x : ℚ) (l : List ℚ) (hx : x ∈ l) : l.foldl min a ≤ x := by
  induction l generalizing a with
  | nil => cases hx
  | cons b bs ih =>
      rcases List.mem_cons.mp hx with h | h
      · subst h
        exact le_trans (foldl_min_le_init (min a x) bs) (min_le_right a x)
      · exact ih (min a b) h

theorem foldl_min_mem (a : ℚ) (l : List ℚ) : l.foldl min a = a ∨ l.foldl min a ∈ l := by
  induction l generalizing a with
  | nil => simp
  | cons b bs ih =>
      rcases ih (min a b) with h | h
      · rcases min_cases a b with ⟨he, _⟩ | ⟨he, _⟩
        · left; simpa [he] using h
        · right; simp [List.mem_cons]; left; simpa [he] using h
      · right; exact List.mem_cons_of_mem _ h

theorem qListMin_mem (l : List ℚ) (h : l ≠ []) : qListMin l ∈ l := by
  cases l with
  | nil => cases h rfl
  | cons a as =>
      unfold qListMin
      rcases foldl_min_mem a as with he | he
      · simp [he]
      · exact List.mem_cons_of_mem _ he

theorem qListMin_le (l : List ℚ) (x : ℚ) (hx : x ∈ l) : qListMin l ≤ x := by
  cases l with
  | nil => cases hx
  | cons a as =>
      unfold qListMin
      rcases List.mem_cons.mp hx with h | h
      · subst h; exact foldl_min_le_init x as
      · exact foldl_min_le_mem a x as h

/-- `f"📌 {agent} ({store})의 NPS가 {nps}로 가장 낮습니다."` -/
def sfWorstSoloMsg (r : SFRow) : String :=
  "📌 " ++ r.agent ++ " (" ++ r.store ++ ")의 NPS가 " ++ fmt1 r.npsValue ++ "%로 가장 낮습니다."

/-- `f"📌 {agent} ({store}) 외 {others}명의 NPS가 {nps}로 가장 낮습니다."` -/
def sfWorstTieMsg (r : SFRow) (others : ℕ) : String :=
  "📌 " ++ r.agent ++ " (" ++ r.store ++ ") 외 " ++ toString others ++
    "명의 NPS가 " ++ fmt1 r.npsValue ++ "%로 가장 낮습니다."

def sfStoreSoloMsg (r : SFStoreRow) : String :=
  "🏪 " ++ r.store ++ "의 NPS가 " ++ fmt1 r.npsValue ++ "%로 가장 낮습니다."

def sfStoreTieMsg (r : SFStoreRow) (others : ℕ) : String :=
  "🏪 " ++ r.store ++ " 외 " ++ toString others ++ "개 매장의 NPS가 " ++
    fmt1 r.npsValue ++ "%로 가장 낮습니다."

def sfRangeMsg (mn mx : ℚ) : String :=
  "📊 NPS 범위: " ++ fmt1 mn ++ "% ~ " ++ fmt1 mx ++ "% (편차 " ++ fmt1 (mx - mn) ++ "%p)"

/-- `_generate_insights`: the worst agent (with tie handling), the NPS
range, then the worst store (with tie handling).  The minimum is taken
over the re-parsed `NPS(%)` strings, which recover exactly the stored
1-decimal values. -/
def sfInsights (resultTcrew : List SFRow) (resultStore : List SFStoreRow)
    (npsValues : List ℚ) : List String :=
  (if resultTcrew.isEmpty then [] else
    let minN := qListMin (resultTcrew.map (·.npsValue))
    let worst := resultTcrew.filter (fun r => decide (r.npsValue = minN))
    let first := worst.headD sfDefaultRow
    (if worst.length = 1 then [sfWorstSoloMsg first]
     else [sfWorstTieMsg first (worst.length - 1)]) ++
    (if npsValues.isEmpty then [] else
      [sfRangeMsg (qListMin npsValues) (qListMax npsValues)])) ++
  (if resultStore.isEmpty then [] else
    let minS := qListMin (resultStore.map (·.npsValue))
    let worstS := resultStore.filter (fun r => decide (r.npsValue = minS))
    let firstS := worstS.headD sfDefaultStoreRow
    (if worstS.length = 1 then [sfStoreSoloMsg firstS]
     else [sfStoreTieMsg firstS (worstS.length - 1)]))

/-- The full `SimpleFilterAnalyzer.analyze` insight list. -/
def sfAnalyzeInsights (rows : List SurveyRow) (f : FilterSpec) : List String :=
  sfInsights (sfByTcrew rows f) (sfByStore rows f) (sfNpsValues rows f)

/-! ## Claim C4: the Simple Filter minimum-response bound -/

def sfC4Row : SurveyRow :=
  { procDate := none, score := 10, agent := "A", agentId := "A1",
    dealer := "D", store := "S", team := "T", senior := false }

def sfC4Rows : List SurveyRow := List.replicate 7 sfC4Row

/-- **C4 (counterexample).** A `FilterSpec` with `min_responses = 10` and
no `min_responses_period1` does not exclude an agent with 7 responses:
`_analyze_by_tcrew` reads `filters.get('min_responses_period1', 5)` and
never consults the generic `min_responses`, so the bound back-falls to 5,
not 10. -/
theorem sfByTcrew_ignores_generic_min_responses :
    sfByTcrew sfC4Rows { min_responses := some 10 } =
      [⟨"T", "D", "S", "A", 7, 7, 0, 100, 100⟩] := by
  with_unfolding_all decide

/-- **C4 (amended).** The Simple Filter per-agent pipeline bounds the
response count below by `min_responses_period1` with a fixed default of
5; the generic `min_responses` field is ignored entirely (the result is
unchanged under any value of it) and is not used as a fallback. -/
theorem sfByTcrew_min_responses_amended (rows : List SurveyRow) (f : FilterSpec) (m : Option ℕ) :
    sfByTcrew rows { f with min_responses := m } = sfByTcrew rows f ∧
    ∀ r ∈ sfByTcrew rows f, f.min_responses_period1.getD 5 ≤ r.count := by
  constructor
  · rfl
  · intro r hr
    rw [sfByTcrew, mem_sortByLe] at hr
    simp only [sfAfterFilters] at hr
    split at hr
    · split at hr <;>
      · have h1 := (List.mem_filter.mp hr).1
        have h2 := (List.mem_filter.mp h1).2
        exact of_decide_eq_true h2
    · exact of_decide_eq_true (List.mem_filter.mp hr).2

/-- Witness for `sfByTcrew_min_responses_amended`: the membership
hypothesis discharged at the concrete 7-response agent row. -/
theorem sfByTcrew_min_responses_amended_witness :
    (({ min_responses := some 10 } : FilterSpec).min_responses_period1.getD 5) ≤
      (⟨"T", "D", "S", "A", 7, 7, 0, 100, 100⟩ : SFRow).count :=
  (sfByTcrew_min_responses_amended sfC4Rows { min_responses := some 10 } (some 10)).2
    ⟨"T", "D", "S", "A", 7, 7, 0, 100, 100⟩ (by with_unfolding_all decide)

/-! ## Claim C9: the worst-agent insight and its tie handling -/

/-- The set of per-agent rows tied at the minimum NPS of the filtered
per-agent table (`worst_tcrews` of `_generate_insights`). -/
def sfWorstSet (rows : List SurveyRow) (f : FilterSpec) : List SFRow :=
  (sfByTcrew rows f).filter
    (fun r => decide (r.npsValue = qListMin ((sfByTcrew rows f).map (·.npsValue))))

/-- `worst_tcrews.iloc[0]`: the first row at the minimum, in the
already-applied sort order. -/
def sfWorstFirst (rows : List SurveyRow) (f : FilterSpec) : SFRow :=
  (sfWorstSet rows f).headD sfDefaultRow

/-- **C9.** On a non-empty filtered per-agent table, the first insight
names exactly one agent: the first row (in the applied sort order) at
the minimum NPS value.  With k rows tied at the minimum it uses the solo
message when k = 1 and otherwise the tie message carrying the count
k - 1 of further agents, so a tie is never reported as a lone agent. -/
theorem sfInsights_worst_tcrew (rows : List SurveyRow) (f : FilterSpec)
    (hne : sfByTcrew rows f ≠ []) :
    sfWorstSet rows f ≠ [] ∧
    sfWorstFirst rows f ∈ sfByTcrew rows f ∧
    (∀ r ∈ sfByTcrew rows f, (sfWorstFirst rows f).npsValue ≤ r.npsValue) ∧
    (sfAnalyzeInsights rows f).head? = some
      (if (sfWorstSet rows f).length = 1 then sfWorstSoloMsg (sfWorstFirst rows f)
       else sfWorstTieMsg (sfWorstFirst rows f) ((sfWorstSet rows f).length - 1)) := by
  have hmap : (sfByTcrew rows f).map (·.npsValue) ≠ [] := by
    simpa using hne
  have hmin := qListMin_mem _ hmap
  obtain ⟨rm, hrm, hrme⟩ := List.mem_map.mp hmin
  have hwne : sfWorstSet rows f ≠ [] := by
    apply List.ne_nil_of_mem (a := rm)
    rw [sfWorstSet, List.mem_filter]
    exact ⟨hrm, by simpa using hrme⟩
  have hfirstW : sfWorstFirst rows f ∈ sfWorstSet rows f := by
    rw [sfWorstFirst]
    cases hW : sfWorstSet rows f with
    | nil => exact absurd hW hwne
    | cons a l => simp
  have hfirstR : sfWorstFirst rows f ∈ sfByTcrew rows f :=
    (List.mem_filter.mp (by rwa [sfWorstSet] at hfirstW)).1
  have hfirstV : (sfWorstFirst rows f).npsValue =
      qListMin ((sfByTcrew rows f).map (·.npsValue)) := by
    have := (List.mem_filter.mp (by rwa [sfWorstSet] at hfirstW)).2
    exact of_decide_eq_true this
  refine ⟨hwne, hfirstR, ?_, ?_⟩
  · intro r hr
    rw [hfirstV]
    exact qListMin_le _ _ (List.mem_map_of_mem _ hr)
  · have hie : (sfByTcrew rows f).isEmpty = false := by
      cases hc : sfByTcrew rows f with
      | nil => exact absurd hc hne
      | cons a l => rfl
    rw [sfAnalyzeInsights, sfInsights]
    simp only [hie, Bool.false_eq_true, if_false]
    rw [show ((sfByTcrew rows f).filter
        (fun r => decide (r.npsValue = qListMin ((sfByTcrew rows f).map (·.npsValue))))) =
        sfWorstSet rows f from rfl]
    rw [show (sfWorstSet rows f).headD sfDefaultRow = sfWorstFirst rows f from rfl]
    by_cases hl : (sfWorstSet rows f).length = 1 <;> simp [hl]

def sfC9RowX : SurveyRow :=
  { procDate := none, score := 0, agent := "X", agentId := "X1",
    dealer := "D", store := "S", team := "T", senior := false }

def sfC9RowY : SurveyRow :=
  { procDate := none, score := 0, agent := "Y", agentId := "Y1",
    dealer := "D", store := "S", team := "T", senior := false }

def sfC9RowZ : SurveyRow :=
  { procDate := none, score := 10, agent := "Z", agentId := "Z1",
    dealer := "D", store := "S", team := "T", senior := false }

def sfC9Rows : List SurveyRow :=
  List.replicate 5 sfC9RowX ++ List.replicate 5 sfC9RowY ++ List.replicate 5 sfC9RowZ

/-- Witness for `sfInsights_worst_tcrew`: agents X and Y tie at the
minimum NPS -100.0; the first insight names X plus "외 1명". -/
theorem sfInsights_worst_tcrew_witness :
    sfByTcrew sfC9Rows {} ≠ [] ∧ (sfWorstSet sfC9Rows {}).length = 2 ∧
    (sfAnalyzeInsights sfC9Rows {}).head? =
      some (sfWorstTieMsg (sfWorstFirst sfC9Rows {}) 1) := by
  refine ⟨by with_unfolding_all decide, by with_unfolding_all decide, ?_⟩
  have h := (sfInsights_worst_tcrew sfC9Rows {} (by with_unfolding_all decide)).2.2.2
  have hl : (sfWorstSet sfC9Rows {}).length = 2 := by with_unfolding_all decide
  rw [hl] at h
  simpa using h

/-! ## Senior Gap analyzer (`senior_gap.py`)

`analyze` scope-filters the dataframe by month/team/dealer/store,
aggregates per agent, computes the population baselines, then narrows the
per-agent table through the senior-proportion filter, the senior-NPS
comparative filter, the NPS-target filter and the response-count floors,
and finally sorts by descending senior proportion then ascending NPS.
The dataframe keeps `시니어NPS` only as a 1-decimal string
(`f"{x:.1f}%"`); every later numeric read re-parses it, so the embedding
stores the 2-decimal `_calculate_nps` value and applies `round1` at each
re-parsing site. -/

def defaultSurveyRow : SurveyRow :=
  { procDate := none, score := 0, agent := "", agentId := "",
    dealer := "", store := "", team := "", senior := false }

def pad2 (n : ℕ) : String := if n < 10 then "0" ++ toString n else toString n

/-- `처리일_dt.strftime('%Y년 %m월')` of a coerced date. -/
def yearMonthLabel (d : DateYMD) : String :=
  toString d.y ++ "년 " ++ pad2 d.m ++ "월"

/-- The month/team/dealer/store scope filters of `analyze` (lines
72-97).  A `NaT` date never equals the month label, so such rows drop
out when the month filter is active. -/
def sgScopeFiltered (rows : List SurveyRow) (f : FilterSpec) : List SurveyRow :=
  let r1 := if strTruthy f.analysis_month && (f.analysis_month != some "전체") then
      rows.filter (fun r => match r.procDate with
        | some d => decide (yearMonthLabel d = f.analysis_month.getD "")
        | none => false)
    else rows
  let r2 := if strTruthy f.team then
      r1.filter (fun r => decide (r.team = f.team.getD "")) else r1
  let r3 := if strTruthy f.dealer_name then
      r2.filter (fun r => decide (r.dealer = f.dealer_name.getD "")) else r2
  if strTruthy f.store_name then
    r3.filter (fun r => decide (r.store = f.store_name.getD "")) else r3

structure SGRow where
  agent : String
  agentId : String
  dealer : String
  store : String
  total : ℕ
  promoters : ℕ
  detractors : ℕ
  seniorCount : ℕ
  npsValue : ℚ
  seniorRate : ℚ
  seniorNpsValue : ℚ
deriving DecidableEq, Repr

def key2 (r : SurveyRow) : String × String := (r.agent, r.agentId)

def key2Le (a b : String × String) : Bool :=
  if a.1 ≠ b.1 then strLt a.1 b.1 else strLe a.2 b.2

/-- One row of `tcrew_stats` (lines 102-137); dealer and store are taken
from the group's first row (`iloc[0]`). -/
def sgBuildRow (df : List SurveyRow) (k : String × String) : SGRow :=
  let g := df.filter (fun r => decide (key2 r = k))
  let total := g.length
  let p := promoterCount (g.map (·.score))
  let d := detractorCount (g.map (·.score))
  let seniorRows := g.filter (·.senior)
  let sc := seniorRows.length
  let nps := calculateNps (g.map (·.score))
  let sNps := if 0 < seniorRows.length then calculateNps (seniorRows.map (·.score)) else 0
  let rate := if 0 < total then (sc : ℚ) / (total : ℚ) * 100 else 0
  ⟨k.1, k.2, (g.headD defaultSurveyRow).dealer, (g.headD defaultSurveyRow).store,
    total, p, d, sc, nps, rate, sNps⟩

def sgTcrewStats (rows : List SurveyRow) (f : FilterSpec) : List SGRow :=
  let df := sgScopeFiltered rows f
  (groupedKeys key2Le key2 df).map (sgBuildRow df)

/-- The population baseline `avg_senior_rate` (lines 153-156): senior
share of the entire scope-filtered dataset, computed before any
per-agent threshold filtering. -/
def sgAvgSeniorRate (rows : List SurveyRow) (f : FilterSpec) : ℚ :=
  let df := sgScopeFiltered rows f
  if 0 < df.length then ((df.filter (·.senior)).length : ℚ) / (df.length : ℚ) * 100 else 0

/-- The population baseline `avg_nps` (line 159). -/
def sgAvgNps (rows : List SurveyRow) (f : FilterSpec) : ℚ :=
  calculateNps ((sgScopeFiltered rows f).map (·.score))

def qListSum (l : List ℚ) : ℚ := l.foldl (fun a b => a + b) 0

/-- pandas `Series.mean()` of a non-empty series. -/
def qListMean (l : List ℚ) : ℚ := qListSum l / (l.length : ℚ)

/-- `avg_senior_nps` (lines 161-168): the mean of the re-parsed senior
NPS over the agents of the *pre-filter* `tcrew_stats` having at least
one senior response. -/
def sgAvgSeniorNps (rows : List SurveyRow) (f : FilterSpec) : ℚ :=
  let withSenior := (sgTcrewStats rows f).filter (fun r => decide (0 < r.seniorCount))
  if 0 < withSenior.length then qListMean (withSenior.map (fun r => round1 r.seniorNpsValue))
  else 0

/-- The senior-proportion filter (lines 173-189); an absent threshold
defaults to average-or-above. -/
def sgStep2 (rows : List SurveyRow) (f : FilterSpec) : List SGRow :=
  let stats := sgTcrewStats rows f
  let avgRate := sgAvgSeniorRate rows f
  match f.senior_threshold with
  | some .avg => stats.filter (fun r => decide (avgRate ≤ r.seniorRate))
  | some .belowAvg => stats.filter (fun r => decide (r.seniorRate < avgRate))
  | some (.custom v) => stats.filter (fun r => decide ((v : ℚ) ≤ r.seniorRate))
  | none => stats.filter (fun r => decide (avgRate ≤ r.seniorRate))

/-- The senior-NPS comparative filter (lines 191-197): on a non-empty
survivor set, drop agents without senior responses, then keep those whose
re-parsed senior NPS is strictly below `avg_senior_nps`. -/
def sgStep3 (rows : List SurveyRow) (f : FilterSpec) : List SGRow :=
  let result := sgStep2 rows f
  if result.isEmpty then result
  else
    (result.filter (fun r => decide (0 < r.seniorCount))).filter
      (fun r => decide (round1 r.seniorNpsValue < sgAvgSeniorNps rows f))

/-- The effective NPS target (87 when the field is absent, lines
199-212). -/
def sgNpsTarget (f : FilterSpec) : ℚ := f.nps_target.getD 87

def sgNpsComparison (f : FilterSpec) : NpsCmp :=
  match f.nps_target with
  | some _ => f.nps_comparison.getD .below
  | none => .below

def sgStep4 (rows : List SurveyRow) (f : FilterSpec) : List SGRow :=
  let result := sgStep3 rows f
  match sgNpsComparison f with
  | .below => result.filter (fun r => decide (r.npsValue < sgNpsTarget f))
  | .above => result.filter (fun r => decide (sgNpsTarget f ≤ r.npsValue))

/-- The response-count floors (lines 214-219). -/
def sgStep5 (rows : List SurveyRow) (f : FilterSpec) : List SGRow :=
  ((sgStep4 rows f).filter (fun r => decide (f.min_responses.getD 5 ≤ r.total))).filter
    (fun r => decide (1 ≤ r.seniorCount))

/-- Descending senior proportion, then ascending NPS (line 222). -/
def sgSortLe (a b : SGRow) : Bool :=
  if a.seniorRate ≠ b.seniorRate then decide (b.seniorRate < a.seniorRate)
  else decide (a.npsValue ≤ b.npsValue)

def sgByTcrew (rows : List SurveyRow) (f : FilterSpec) : List SGRow :=
  sortByLe sgSortLe (sgStep5 rows f)

/-- `df_satisfied`: the scope-filtered rows of the surviving agents. -/
def sgSatisfiedRows (rows : List SurveyRow) (f : FilterSpec) : List SurveyRow :=
  (sgScopeFiltered rows f).filter
    (fun r => decide (r.agentId ∈ (sgByTcrew rows f).map (·.agentId)))

/-! `_analyze_by_store` (lines 325-440): the same aggregation and the
same threshold values, over the rows of the surviving agents, grouped by
(team, dealer, store). -/

structure SGStoreRow where
  team : String
  dealer : String
  store : String
  total : ℕ
  promoters : ℕ
  detractors : ℕ
  seniorCount : ℕ
  npsValue : ℚ
  seniorRate : ℚ
  seniorNpsValue : ℚ
deriving DecidableEq, Repr

def sgBuildStoreRow (df : List SurveyRow) (k : String × String × String) : SGStoreRow :=
  let g := df.filter (fun r => decide (key3 r = k))
  let total := g.length
  let p := promoterCount (g.map (·.score))
  let d := detractorCount (g.map (·.score))
  let seniorRows := g.filter (·.senior)
  let sc := seniorRows.length
  let nps := calculateNps (g.map (·.score))
  let sNps := if 0 < seniorRows.length then calculateNps (seniorRows.map (·.score)) else 0
  let rate := if 0 < total then (sc : ℚ) / (total : ℚ) * 100 else 0
  ⟨k.1, k.2.1, k.2.2, total, p, d, sc, nps, rate, sNps⟩

def sgStoreSortLe (a b : SGStoreRow) : Bool :=
  if a.seniorRate ≠ b.seniorRate then decide (b.seniorRate < a.seniorRate)
  else decide (a.npsValue ≤ b.npsValue)

def sgByStore (rows : List SurveyRow) (f : FilterSpec) : List SGStoreRow :=
  let dfSat := sgSatisfiedRows rows f
  if dfSat.isEmpty then []
  else
    let stats := (groupedKeys key3Le key3 dfSat).map (sgBuildStoreRow dfSat)
    let s1 := match sgNpsComparison f with
      | .below => stats.filter (fun (r : SGStoreRow) => decide (r.npsValue < sgNpsTarget f))
      | .above => stats.filter (fun (r : SGStoreRow) => decide (sgNpsTarget f ≤ r.npsValue))
    let s2 := match f.senior_threshold with
      | some .avg => s1.filter (fun (r : SGStoreRow) => decide (sgAvgSeniorRate rows f ≤ r.seniorRate))
      | some .belowAvg => s1.filter (fun (r : SGStoreRow) => decide (r.seniorRate < sgAvgSeniorRate rows f))
      | some (.custom v) => s1.filter (fun (r : SGStoreRow) => decide ((v : ℚ) ≤ r.seniorRate))
      | none => s1.filter (fun (r : SGStoreRow) => decide (sgAvgSeniorRate rows f ≤ r.seniorRate))
    let s3 := (s2.filter (fun r => decide (f.min_responses.getD 5 ≤ r.total))).filter
      (fun r => decide (1 ≤ r.seniorCount))
    sortByLe sgStoreSortLe s3

/-! `_generate_insights` (lines 272-323). -/

def sgInsights (result : List SGRow) (avgRate avgNps npsTarget : ℚ)
    (cmp : NpsCmp) : List String :=
  if result.isEmpty then
    ["⚠️ 조건을 만족하는 T크루가 없습니다."] ++
    (if cmp = .below then
      ["✨ 모든 T크루가 NPS 목표(" ++ toString npsTarget ++ "%)를 달성했습니다!"]
     else ["💡 필터 조건을 완화해보세요!"])
  else
    let top1 := result.headD
      ⟨"", "", "", "", 0, 0, 0, 0, 0, 0, 0⟩
    ["📊 총 **" ++ toString result.length ++ "명**의 T크루가 조건을 만족합니다"] ++
    (if cmp = .below then
      ["🎯 NPS 목표 **" ++ toString npsTarget ++ "%** 미달 T크루입니다"]
     else ["🎯 NPS 목표 **" ++ toString npsTarget ++ "%** 달성 T크루입니다"]) ++
    ["📈 필터 조건Y 비중: **" ++ fmt1 (qListMean (result.map (·.seniorRate))) ++
      "%** (전체 평균: " ++ fmt1 avgRate ++ "%)"] ++
    ["📉 평균 NPS: **" ++ fmt1 (qListMean (result.map (·.npsValue))) ++
      "** (전체 평균: " ++ fmt1 avgNps ++ "%)"] ++
    ["🔴 **" ++ top1.agent ++ "** T크루: 시니어 비중 **" ++ fmt1 top1.seniorRate ++
      "%**, NPS **" ++ fmt1 top1.npsValue ++ "%**, 시니어NPS **" ++
      fmt1 top1.seniorNpsValue ++ "%**"] ++
    (let highSenior := result.filter (fun r => decide ((30 : ℚ) ≤ r.seniorRate))
     if 0 < highSenior.length then
      ["⚠️ 시니어 비중 30% 이상인 T크루가 **" ++ toString highSenior.length ++ "명**입니다"]
     else []) ++
    (let largeGap := result.filter
        (fun r => decide ((10 : ℚ) ≤ |r.npsValue - round1 r.seniorNpsValue|))
     if 0 < largeGap.length then
      ["⚠️ 시니어 NPS와 전체 NPS 차이가 10% 이상인 T크루가 **" ++
        toString largeGap.length ++ "명**입니다"]
     else []) ++
    (if cmp = .below then
      ["💡 **시니어 고객 응대 개선**이 NPS 목표 달성의 핵심입니다!"]
     else [])

/-! The result bundle of `SeniorGapAnalyzer.analyze`.  The summary maps
the dict entries: `'조건 만족 T크루'`, `'조건 만족 매장'`, `'NPS 목표'`
(`none` stands for the `"N/A"` of the empty early return),
`'필터 조건Y 시니어 비중'` (numeric part plus the senior/total counts of
its `(a/b)` suffix), `'조건 만족 T크루 NPS'` (the weighted NPS, `none`
for `"N/A"`), and the `'분석월'` entry added only when an analysis month
is set. -/

structure SGSummary where
  tcrewCount : ℕ
  storeCount : ℕ
  npsTargetValue : Option ℚ
  baselineRate : Option ℚ
  baselineSenior : ℕ
  baselineTotal : ℕ
  weightedNps : Option ℚ
  analysisMonthEcho : Option String
deriving DecidableEq, Repr

structure SGBundle where
  byTcrew : List SGRow
  byStore : List SGStoreRow
  insights : List String
  summary : SGSummary
deriving DecidableEq, Repr

def sgAnalyze (rows : List SurveyRow) (f : FilterSpec) : SGBundle :=
  if (sgTcrewStats rows f).isEmpty then
    { byTcrew := [], byStore := [],
      insights := ["⚠️ 조건을 만족하는 데이터가 없습니다."],
      summary := { tcrewCount := 0, storeCount := 0, npsTargetValue := none,
                   baselineRate := none, baselineSenior := 0, baselineTotal := 0,
                   weightedNps := none, analysisMonthEcho := none } }
  else
    let result := sgByTcrew rows f
    { byTcrew := result,
      byStore := sgByStore rows f,
      insights := sgInsights result (sgAvgSeniorRate rows f) (sgAvgNps rows f)
        (sgNpsTarget f) (sgNpsComparison f),
      summary := { tcrewCount := result.length,
                   storeCount := (sgByStore rows f).length,
                   npsTargetValue := some (sgNpsTarget f),
                   baselineRate := some (sgAvgSeniorRate rows f),
                   baselineSenior := ((sgScopeFiltered rows f).filter (·.senior)).length,
                   baselineTotal := (sgScopeFiltered rows f).length,
                   weightedNps := if result.isEmpty then none
                     else some (calculateNps ((sgSatisfiedRows rows f).map (·.score))),
                   analysisMonthEcho := if strTruthy f.analysis_month then f.analysis_month
                     else none } }

/-! ## Claim C2: the baseline of the senior-NPS comparative filter -/

/-- Modelled from the spec's words, for comparison against the source
only (claim C2): step 3 with its baseline recomputed as the mean senior
NPS over the step-2 survivors having at least one senior response. -/
def sgStep3SpecC2 (rows : List SurveyRow) (f : FilterSpec) : List SGRow :=
  let result := sgStep2 rows f
  let survivorsWithSenior := result.filter (fun r => decide (0 < r.seniorCount))
  let base := qListMean (survivorsWithSenior.map (fun r => round1 r.seniorNpsValue))
  survivorsWithSenior.filter (fun r => decide (round1 r.seniorNpsValue < base))

def mkRow (ag aid : String) (sc : ℚ) (sen : Bool) : SurveyRow :=
  { procDate := none, score := sc, agent := ag, agentId := aid,
    dealer := "D", store := "S", team := "T", senior := sen }

def sgC2Rows : List SurveyRow :=
  [mkRow "A" "A1" 9 true, mkRow "A" "A1" 9 true, mkRow "A" "A1" 9 true,
   mkRow "A" "A1" 9 true, mkRow "A" "A1" 0 true,
   mkRow "B" "B1" 10 true, mkRow "B" "B1" 10 true, mkRow "B" "B1" 10 true,
   mkRow "B" "B1" 10 true, mkRow "B" "B1" 10 true,
   mkRow "C" "C1" 0 true, mkRow "C" "C1" 10 false, mkRow "C" "C1" 10 false,
   mkRow "C" "C1" 10 false, mkRow "C" "C1" 10 false]

def sgC2Filters : FilterSpec := { senior_threshold := some (.custom 50) }

/-- **C2 (counterexample).** On a concrete table the baseline used by
step 3 is the mean senior NPS over the *pre-filter* agent population
with ≥ 1 senior response (here 20), not the mean over the step-2
survivors (here 80): agent A (senior NPS 60, all other filters passing)
is dropped by the code although the claim's filter would keep it, and
the final per-agent result is empty where the claim predicts agent A. -/
theorem sgStep3_baseline_counterexample :
    sgAvgSeniorNps sgC2Rows sgC2Filters = 20 ∧
    qListMean (((sgStep2 sgC2Rows sgC2Filters).filter
        (fun r => decide (0 < r.seniorCount))).map (fun r => round1 r.seniorNpsValue)) = 80 ∧
    sgStep3 sgC2Rows sgC2Filters = [] ∧
    (sgStep3SpecC2 sgC2Rows sgC2Filters).map (·.agent) = ["A"] ∧
    (sgAnalyze sgC2Rows sgC2Filters).byTcrew = [] := by
  refine ⟨?_, ?_, ?_, ?_, ?_⟩ <;> with_unfolding_all decide

/-- **C2 (amended).** Step 3 of the Senior Gap per-agent pipeline first
drops agents with zero senior responses and then keeps exactly the
agents whose (re-parsed, 1-decimal) senior NPS is strictly below
`avg_senior_nps` — the mean senior NPS over ALL agents of the pre-filter
aggregation having at least one senior response, a baseline computed
before step 2 and therefore unchanged by the senior-proportion
threshold. -/
theorem sgStep3_uses_prefilter_baseline (rows : List SurveyRow) (f : FilterSpec)
    (st : Option SeniorThreshold) :
    (∀ r : SGRow, r ∈ sgStep3 rows f ↔
      (r ∈ sgStep2 rows f ∧ 0 < r.seniorCount ∧
        round1 r.seniorNpsValue < sgAvgSeniorNps rows f)) ∧
    sgAvgSeniorNps rows { f with senior_threshold := st } = sgAvgSeniorNps rows f := by
  constructor
  · intro r
    simp only [sgStep3]
    cases hl : sgStep2 rows f with
    | nil => simp
    | cons a l =>
        simp only [List.isEmpty_cons, Bool.false_eq_true, if_false, List.mem_filter,
          decide_eq_true_eq]
        tauto
  · rfl

/-! ## Claim C7: stability of the population senior-proportion baseline -/

/-- **C7.** The population baseline `avg_senior_rate` is computed on the
scope-filtered dataset before any per-agent threshold filtering: two runs
differing only in the `min_responses` floor use the identical baseline in
the filter pipeline, and report the identical baseline in the summary. -/
theorem sgBaseline_stable_under_min_responses (rows : List SurveyRow) (f : FilterSpec)
    (m1 m2 : Option ℕ) :
    sgAvgSeniorRate rows { f with min_responses := m1 } =
      sgAvgSeniorRate rows { f with min_responses := m2 } ∧
    sgStep2 rows { f with min_responses := m1 } =
      sgStep2 rows { f with min_responses := m2 } ∧
    (sgAnalyze rows { f with min_responses := m1 }).summary.baselineRate =
      (sgAnalyze rows { f with min_responses := m2 }).summary.baselineRate := by
  refine ⟨rfl, rfl, ?_⟩
  have h1 : sgTcrewStats rows { f with min_responses := m1 } = sgTcrewStats rows f := rfl
  have h2 : sgTcrewStats rows { f with min_responses := m2 } = sgTcrewStats rows f := rfl
  rw [sgAnalyze, sgAnalyze, h1, h2]
  cases h : (sgTcrewStats rows f).isEmpty <;> simp [h] <;> rfl

/-! ## Period Comparison analyzer (`period_comparison.py`)

`analyze` checks the date column, resolves the comparison periods (error
sentinel, explicit periods, or the fixed fallback), partitions the rows
into the two inclusive date windows, aggregates each per agent, inner-
joins on (agent, agent id, dealer, store), derives the delta, applies
the trend / NPS-target / minimum-response filters, and sorts by the
trend's direction.  The presence of the `처리일` column is passed as an
explicit boolean; rows always carry the (possibly `NaT`) coerced date. -/

/-- `df['처리일'] >= start and < end + 1 day`; `NaT` compares false. -/
def inPeriod (s e : DateYMD) (r : SurveyRow) : Bool :=
  match r.procDate with
  | some d => dateLe s d && dateLt d (nextDay e)
  | none => false

inductive PCPeriods where
  | err (msg : String)
  | ok (p1s p1e p2s p2e : DateYMD) (label1 label2 : String)
deriving DecidableEq, Repr

/-- Lines 74-107: the ERROR dictionary wins (its message is a non-empty,
hence truthy, string), explicit periods are used as given, and an absent
structure falls back to Sep 1 – Dec 31, 2025 versus Jan 2026. -/
def pcResolvePeriods (f : FilterSpec) : PCPeriods :=
  match f.comparison_periods with
  | some (.error msg _ _) => .err msg
  | some (.periods a b c d l1 l2) => .ok a b c d l1 l2
  | none => .ok ⟨2025, 9, 1⟩ ⟨2025, 12, 31⟩ ⟨2026, 1, 1⟩ ⟨2026, 1, 31⟩ "9~12월" "1월"

def pcP1Rows (rows : List SurveyRow) (f : FilterSpec) : List SurveyRow :=
  match pcResolvePeriods f with
  | .ok s e _ _ _ _ => rows.filter (inPeriod s e)
  | .err _ => []

def pcP2Rows (rows : List SurveyRow) (f : FilterSpec) : List SurveyRow :=
  match pcResolvePeriods f with
  | .ok _ _ s e _ _ => rows.filter (inPeriod s e)
  | .err _ => []

structure PCAggRow where
  agent : String
  agentId : String
  dealer : String
  store : String
  total : ℕ
  promoters : ℕ
  detractors : ℕ
  npsValue : ℚ
deriving DecidableEq, Repr

/-- `_aggregate_by_tcrew` (lines 300-329); dealer and store from the
group's first row. -/
def pcBuildRow (df : List SurveyRow) (k : String × String) : PCAggRow :=
  let g := df.filter (fun r => decide (key2 r = k))
  ⟨k.1, k.2, (g.headD defaultSurveyRow).dealer, (g.headD defaultSurveyRow).store,
    g.length, promoterCount (g.map (·.score)), detractorCount (g.map (·.score)),
    calculateNps (g.map (·.score))⟩

def pcAgg (df : List SurveyRow) : List PCAggRow :=
  (groupedKeys key2Le key2 df).map (pcBuildRow df)

def pcKey (r : PCAggRow) : String × String × String × String :=
  (r.agent, r.agentId, r.dealer, r.store)

structure PCMergedRow where
  agent : String
  agentId : String
  dealer : String
  store : String
  nps1 : ℚ
  count1 : ℕ
  nps2 : ℚ
  count2 : ℕ
deriving DecidableEq, Repr

def pcMergedKey (r : PCMergedRow) : String × String × String × String :=
  (r.agent, r.agentId, r.dealer, r.store)

/-- The added column `NPS증감_value` (line 215). -/
def pcDelta (r : PCMergedRow) : ℚ := r.nps2 - r.nps1

/-- `pd.merge(..., how='inner')` (lines 185-192): the per-period group
keys are unique, so each left row pairs with at most one right row. -/
def pcMerged (rows : List SurveyRow) (f : FilterSpec) : List PCMergedRow :=
  (pcAgg (pcP1Rows rows f)).filterMap (fun r1 =>
    match (pcAgg (pcP2Rows rows f)).find? (fun r2 => decide (pcKey r2 = pcKey r1)) with
    | some r2 => some ⟨r1.agent, r1.agentId, r1.dealer, r1.store,
        r1.npsValue, r1.total, r2.npsValue, r2.total⟩
    | none => none)

/-- The trend, NPS-target and minimum-response filters (lines 220-248). -/
def pcFiltered (rows : List SurveyRow) (f : FilterSpec) : List PCMergedRow :=
  let t0 := pcMerged rows f
  let t1 := match f.trend with
    | some .decrease => t0.filter (fun (r : PCMergedRow) => decide (pcDelta r < 0))
    | some .increase => t0.filter (fun (r : PCMergedRow) => decide (0 < pcDelta r))
    | none => t0
  let t2 := match f.nps_target with
    | some t =>
        if f.nps_comparison.getD NpsCmp.below = NpsCmp.below then
          t1.filter (fun (r : PCMergedRow) => decide (r.nps2 < t))
        else t1.filter (fun (r : PCMergedRow) => decide (t ≤ r.nps2))
    | none => t1
  let m1 := f.min_responses_period1.getD (f.min_responses.getD 5)
  let m2 := f.min_responses_period2.getD (f.min_responses.getD 5)
  t2.filter (fun (r : PCMergedRow) => decide (m1 ≤ r.count1) && decide (m2 ≤ r.count2))

/-- The sort of lines 250-259: ascending delta under DECREASE,
descending under INCREASE, descending absolute delta otherwise. -/
def pcSortLe (f : FilterSpec) (a b : PCMergedRow) : Bool :=
  match f.trend with
  | some .decrease => decide (pcDelta a ≤ pcDelta b)
  | some .increase => decide (pcDelta b ≤ pcDelta a)
  | none => decide (|pcDelta b| ≤ |pcDelta a|)

def pcFinal (rows : List SurveyRow) (f : FilterSpec) : List PCMergedRow :=
  sortByLe (pcSortLe f) (pcFiltered rows f)

/-! `_analyze_by_store` (lines 379-497): the same join and filters at
store granularity, with empty-aggregate early returns. -/

structure PCStoreAggRow where
  team : String
  dealer : String
  store : String
  total : ℕ
  npsValue : ℚ
deriving DecidableEq, Repr

def pcStoreAgg (df : List SurveyRow) : List PCStoreAggRow :=
  (groupedKeys key3Le key3 df).map (fun k =>
    let g := df.filter (fun r => decide (key3 r = k))
    ⟨k.1, k.2.1, k.2.2, g.length, calculateNps (g.map (·.score))⟩)

structure PCStoreMergedRow where
  team : String
  dealer : String
  store : String
  nps1 : ℚ
  count1 : ℕ
  nps2 : ℚ
  count2 : ℕ
deriving DecidableEq, Repr

def pcStoreDelta (r : PCStoreMergedRow) : ℚ := r.nps2 - r.nps1

def pcStoreSortLe (f : FilterSpec) (a b : PCStoreMergedRow) : Bool :=
  match f.trend with
  | some .decrease => decide (pcStoreDelta a ≤ pcStoreDelta b)
  | some .increase => decide (pcStoreDelta b ≤ pcStoreDelta a)
  | none => decide (|pcStoreDelta b| ≤ |pcStoreDelta a|)

def pcByStore (rows : List SurveyRow) (f : FilterSpec) : List PCStoreMergedRow :=
  let agg1 := pcStoreAgg (pcP1Rows rows f)
  if agg1.isEmpty then []
  else
    let agg2 := pcStoreAgg (pcP2Rows rows f)
    if agg2.isEmpty then []
    else
      let merged := agg1.filterMap (fun (r1 : PCStoreAggRow) =>
        match agg2.find? (fun (r2 : PCStoreAggRow) =>
            decide ((r2.team, r2.dealer, r2.store) = (r1.team, r1.dealer, r1.store))) with
        | some r2 => some (⟨r1.team, r1.dealer, r1.store,
            r1.npsValue, r1.total, r2.npsValue, r2.total⟩ : PCStoreMergedRow)
        | none => none)
      if merged.isEmpty then []
      else
        let t1 := match f.trend with
          | some .decrease => merged.filter (fun (r : PCStoreMergedRow) => decide (pcStoreDelta r < 0))
          | some .increase => merged.filter (fun (r : PCStoreMergedRow) => decide (0 < pcStoreDelta r))
          | none => merged
        let t2 := match f.nps_target with
          | some t =>
              if f.nps_comparison.getD NpsCmp.below = NpsCmp.below then
                t1.filter (fun (r : PCStoreMergedRow) => decide (r.nps2 < t))
              else t1.filter (fun (r : PCStoreMergedRow) => decide (t ≤ r.nps2))
          | none => t1
        let m1 := f.min_responses_period1.getD (f.min_responses.getD 5)
        let m2 := f.min_responses_period2.getD (f.min_responses.getD 5)
        sortByLe (pcStoreSortLe f)
          (t2.filter (fun (r : PCStoreMergedRow) =>
            decide (m1 ≤ r.count1) && decide (m2 ≤ r.count2)))

/-! `_generate_insights` (lines 331-377). -/

/-- `f"{x:+.1f}"`. -/
def fmtSigned1 (x : ℚ) : String := (if 0 ≤ x then "+" else "") ++ fmt1 x

def pcDefaultMergedRow : PCMergedRow := ⟨"", "", "", "", 0, 0, 0, 0⟩

def pcInsights (result : List PCMergedRow) (trend : Option Trend) : List String :=
  if result.isEmpty then ["⚠️ 조건을 만족하는 T크루가 없습니다."]
  else
    let n := result.length
    let avgChange := qListMean (result.map pcDelta)
    let top1 := result.headD pcDefaultMergedRow
    (match trend with
     | some .decrease =>
        ["📊 총 **" ++ toString n ++ "명**의 T크루가 NPS 하락했습니다",
         "📉 평균 하락폭: **" ++ fmt1 |avgChange| ++ "%p**"]
     | some .increase =>
        ["📊 총 **" ++ toString n ++ "명**의 T크루가 NPS 상승했습니다",
         "📈 평균 상승폭: **" ++ fmt1 avgChange ++ "%p**"]
     | none =>
        ["📊 총 **" ++ toString n ++ "명**의 T크루 데이터가 있습니다",
         "📊 평균 NPS 변화: **" ++ fmtSigned1 avgChange ++ "%p**"]) ++
    (match trend with
     | some .decrease =>
        ["🔴 **" ++ top1.agent ++ "** T크루: 최대 하락 **" ++ fmt1 |pcDelta top1| ++
          "%p** (" ++ fmt1 top1.nps1 ++ "% → " ++ fmt1 top1.nps2 ++ "%)"]
     | some .increase =>
        ["🟢 **" ++ top1.agent ++ "** T크루: 최대 상승 **" ++ fmt1 (pcDelta top1) ++
          "%p** (" ++ fmt1 top1.nps1 ++ "% → " ++ fmt1 top1.nps2 ++ "%)"]
     | none => []) ++
    (match trend with
     | some .decrease =>
        let ld := result.filter (fun r => decide (pcDelta r ≤ -10))
        if 0 < ld.length then
          ["⚠️ NPS 10%p 이상 하락한 T크루가 **" ++ toString ld.length ++ "명**입니다"]
        else []
     | some .increase =>
        let li := result.filter (fun r => decide ((10 : ℚ) ≤ pcDelta r))
        if 0 < li.length then
          ["✨ NPS 10%p 이상 상승한 T크루가 **" ++ toString li.length ++ "명**입니다"]
        else []
     | none => [])

/-! The result bundle of `PeriodComparisonAnalyzer.analyze`.  The summary
fields map the dict entries `'조건 만족 T크루'`, `'조건 만족 매장'`,
`'기준 기간'`, `'비교 기간'` (with `"N/A"` on the missing-column and
error bundles) and `'평균 NPS 증감'` (`none` covers its `"N/A"` and the
NaN a mean over an empty filtered set would format).  The
missing-column early return names its table key `'data'` and carries no
store count; both are represented by the same empty fields. -/

structure PCSummary where
  tcrewCount : ℕ
  storeCount : ℕ
  period1Label : String
  period2Label : String
  avgChange : Option ℚ
deriving DecidableEq, Repr

structure PCBundle where
  byTcrew : List PCMergedRow
  byStore : List PCStoreMergedRow
  insights : List String
  summary : PCSummary
deriving DecidableEq, Repr

def pcMissingColBundle : PCBundle :=
  { byTcrew := [], byStore := [],
    insights := ["⚠️ 처리일 컬럼이 없습니다."],
    summary := ⟨0, 0, "N/A", "N/A", none⟩ }

/-- Lines 77-90: the empty result propagating the parser's error
message. -/
def pcErrorBundle (msg : String) : PCBundle :=
  { byTcrew := [], byStore := [],
    insights := ["⚠️ " ++ msg],
    summary := ⟨0, 0, "N/A", "N/A", none⟩ }

def pcEmptyP1Bundle (l1 l2 : String) : PCBundle :=
  { byTcrew := [], byStore := [],
    insights := ["⚠️ 기준 기간(" ++ l1 ++ ")에 응답 데이터가 없습니다.",
                 "💡 분석월 필터를 '전체'로 변경해보세요."],
    summary := ⟨0, 0, l1, l2, none⟩ }

def pcEmptyP2Bundle (l1 l2 : String) : PCBundle :=
  { byTcrew := [], byStore := [],
    insights := ["⚠️ 비교 기간(" ++ l2 ++ ")에 응답 데이터가 없습니다.",
                 "💡 분석월 필터를 '전체'로 변경해보세요."],
    summary := ⟨0, 0, l1, l2, none⟩ }

def pcEmptyJoinBundle (l1 l2 : String) : PCBundle :=
  { byTcrew := [], byStore := [],
    insights := ["⚠️ 두 기간 모두 데이터가 있는 T크루가 없습니다.",
                 "💡 분석월 필터를 '전체'로 변경해보세요."],
    summary := ⟨0, 0, l1, l2, none⟩ }

def pcAnalyze (hasDateCol : Bool) (rows : List SurveyRow) (f : FilterSpec) : PCBundle :=
  match hasDateCol with
  | false => pcMissingColBundle
  | true =>
    match pcResolvePeriods f with
    | .err msg => pcErrorBundle msg
    | .ok _ _ _ _ l1 l2 =>
      if (pcAgg (pcP1Rows rows f)).isEmpty then pcEmptyP1Bundle l1 l2
      else if (pcAgg (pcP2Rows rows f)).isEmpty then pcEmptyP2Bundle l1 l2
      else if (pcMerged rows f).isEmpty then pcEmptyJoinBundle l1 l2
      else
        { byTcrew := pcFinal rows f,
          byStore := pcByStore rows f,
          insights := pcInsights (pcFinal rows f) f.trend,
          summary := ⟨(pcFinal rows f).length, (pcByStore rows f).length, l1, l2,
            if (pcFinal rows f).isEmpty then none
            else some (qListMean ((pcFinal rows f).map pcDelta))⟩ }

/-! ## Claim C6: inner-join exclusivity of the per-agent comparison -/

theorem pcAnalyze_byTcrew_sub (h : Bool) (rows : List SurveyRow) (f : FilterSpec)
    (r : PCMergedRow) (hr : r ∈ (pcAnalyze h rows f).byTcrew) : r ∈ pcFinal rows f := by
  cases h with
  | false => simp [pcAnalyze, pcMissingColBundle] at hr
  | true =>
      rw [pcAnalyze] at hr
      rcases hp : pcResolvePeriods f with msg | ⟨a, b, c, d, l1, l2⟩ <;> rw [hp] at hr
      · simp [pcErrorBundle] at hr
      · split_ifs at hr with h1 h2 h3 h4
        · exact absurd hr (by simp [pcEmptyP1Bundle])
        · exact absurd hr (by simp [pcEmptyP2Bundle])
        · exact absurd hr (by simp [pcEmptyJoinBundle])
        · simpa using hr
        · simpa using hr

theorem pcFinal_mem_merged (rows : List SurveyRow) (f : FilterSpec)
    (r : PCMergedRow) (hr : r ∈ pcFinal rows f) : r ∈ pcMerged rows f := by
  rw [pcFinal, mem_sortByLe] at hr
  simp only [pcFiltered] at hr
  have hr2 := (List.mem_filter.mp hr).1
  have hr1 : r ∈ (match f.trend with
    | some .decrease => (pcMerged rows f).filter (fun (x : PCMergedRow) => decide (pcDelta x < 0))
    | some .increase => (pcMerged rows f).filter (fun (x : PCMergedRow) => decide (0 < pcDelta x))
    | none => pcMerged rows f) := by
    revert hr2
    cases f.nps_target with
    | none => exact id
    | some t =>
        simp only []
        split <;> exact fun hx => (List.mem_filter.mp hx).1
  revert hr1
  cases htr : f.trend with
  | none => exact id
  | some tr => cases tr <;> (simp only []; exact fun hx => (List.mem_filter.mp hx).1)

theorem pcMerged_keys (rows : List SurveyRow) (f : FilterSpec)
    (r : PCMergedRow) (hr : r ∈ pcMerged rows f) :
    (∃ a ∈ pcAgg (pcP1Rows rows f), pcKey a = pcMergedKey r) ∧
    (∃ b ∈ pcAgg (pcP2Rows rows f), pcKey b = pcMergedKey r) := by
  rw [pcMerged, List.mem_filterMap] at hr
  obtain ⟨r1, hr1, heq⟩ := hr
  rcases hf : (pcAgg (pcP2Rows rows f)).find? (fun r2 => decide (pcKey r2 = pcKey r1)) with
    _ | r2 <;> rw [hf] at heq
  · cases heq
  · have hrdef : r = ⟨r1.agent, r1.agentId, r1.dealer, r1.store,
        r1.npsValue, r1.total, r2.npsValue, r2.total⟩ := by
      cases heq; rfl
    have hkey : pcMergedKey r = pcKey r1 := by rw [hrdef]; rfl
    refine ⟨⟨r1, hr1, hkey.symm⟩, ?_⟩
    refine ⟨r2, List.mem_of_find?_eq_some hf, ?_⟩
    have := List.find?_some hf
    rw [hkey]
    exact of_decide_eq_true this

/-- **C6.** In the Period Comparison analyzer, for every input table,
every pair of periods (including the error and fallback resolutions) and
every setting of the trend, NPS-target and minimum-response filters, a
grouping key (agent, agent id, dealer, store) that is missing from
either period's per-agent aggregate never appears in the final joined
per-agent result. -/
theorem pcAnalyze_inner_join_exclusive (h : Bool) (rows : List SurveyRow) (f : FilterSpec)
    (k : String × String × String × String) :
    ((∀ b ∈ pcAgg (pcP2Rows rows f), pcKey b ≠ k) →
      ∀ r ∈ (pcAnalyze h rows f).byTcrew, pcMergedKey r ≠ k) ∧
    ((∀ a ∈ pcAgg (pcP1Rows rows f), pcKey a ≠ k) →
      ∀ r ∈ (pcAnalyze h rows f).byTcrew, pcMergedKey r ≠ k) := by
  constructor
  · intro hmiss r hr hk
    have hm := pcFinal_mem_merged rows f r (pcAnalyze_byTcrew_sub h rows f r hr)
    obtain ⟨b, hb, hbk⟩ := (pcMerged_keys rows f r hm).2
    exact hmiss b hb (hbk.trans hk)
  · intro hmiss r hr hk
    have hm := pcFinal_mem_merged rows f r (pcAnalyze_byTcrew_sub h rows f r hr)
    obtain ⟨a, ha, hak⟩ := (pcMerged_keys rows f r hm).1
    exact hmiss a ha (hak.trans hk)

def mkRowD (ag aid : String) (d : DateYMD) : SurveyRow :=
  { procDate := some d, score := 10, agent := ag, agentId := aid,
    dealer := "D", store := "S", team := "T", senior := false }

/-- Agent P responds only in the fallback baseline window (Oct 2025);
agent Q responds in both windows. -/
def pcC6Rows : List SurveyRow :=
  [mkRowD "P" "P1" ⟨2025, 10, 5⟩, mkRowD "P" "P1" ⟨2025, 10, 5⟩,
   mkRowD "P" "P1" ⟨2025, 10, 5⟩, mkRowD "P" "P1" ⟨2025, 10, 5⟩,
   mkRowD "P" "P1" ⟨2025, 10, 5⟩,
   mkRowD "Q" "Q1" ⟨2025, 10, 6⟩, mkRowD "Q" "Q1" ⟨2025, 10, 6⟩,
   mkRowD "Q" "Q1" ⟨2025, 10, 6⟩, mkRowD "Q" "Q1" ⟨2025, 10, 6⟩,
   mkRowD "Q" "Q1" ⟨2025, 10, 6⟩,
   mkRowD "Q" "Q1" ⟨2026, 1, 10⟩, mkRowD "Q" "Q1" ⟨2026, 1, 10⟩,
   mkRowD "Q" "Q1" ⟨2026, 1, 10⟩, mkRowD "Q" "Q1" ⟨2026, 1, 10⟩,
   mkRowD "Q" "Q1" ⟨2026, 1, 10⟩]

/-- Witness for `pcAnalyze_inner_join_exclusive`: P appears in period
1's aggregate only, and the non-empty final result (it contains Q)
carries no row with P's key. -/
theorem pcAnalyze_inner_join_exclusive_witness :
    (∃ a ∈ pcAgg (pcP1Rows pcC6Rows {}), pcKey a = ("P", "P1", "D", "S")) ∧
    (∀ b ∈ pcAgg (pcP2Rows pcC6Rows {}), pcKey b ≠ ("P", "P1", "D", "S")) ∧
    (pcAnalyze true pcC6Rows {}).byTcrew ≠ [] ∧
    (∀ r ∈ (pcAnalyze true pcC6Rows {}).byTcrew, pcMergedKey r ≠ ("P", "P1", "D", "S")) := by
  refine ⟨?_, ?_, ?_, ?_⟩
  · with_unfolding_all decide
  · with_unfolding_all decide
  · with_unfolding_all decide
  · exact (pcAnalyze_inner_join_exclusive true pcC6Rows {} ("P", "P1", "D", "S")).1
      (by with_unfolding_all decide)

/-! ## Claim C5: the day-range ERROR sentinel and its propagation -/

/-- **C5.** A question on which neither month pattern matches but the
day-range pattern does, parsed with no analysis month, yields the
explicit ERROR dictionary (not an absent result); and the Period
Comparison analyzer, handed a `FilterSpec` carrying that extraction,
returns the explanatory empty bundle surfacing the same message instead
of analysing or applying the fallback periods. -/
theorem pcAnalyze_error_sentinel (q : String) (d1 d2 : ℕ) (rows : List SurveyRow)
    (f : FilterSpec)
    (hp1 : findPattern1 q.toList = none)
    (hp2 : findPattern2 q.toList = none)
    (hp3 : findPattern3 q.toList = some (d1, d2)) :
    extractComparisonPeriods q none = some (.error "분석월을 선택해주세요" "오류" "오류") ∧
    pcAnalyze true rows { f with comparison_periods := extractComparisonPeriods q none } =
      pcErrorBundle "분석월을 선택해주세요" := by
  have hext : extractComparisonPeriods q none =
      some (.error "분석월을 선택해주세요" "오류" "오류") := by
    unfold extractComparisonPeriods
    rw [hp1, hp2, hp3]
  refine ⟨hext, ?_⟩
  rw [hext]
  rfl

/-- Witness for `pcAnalyze_error_sentinel` at the question
`"2일 대비 5일"` with an empty table and a default `FilterSpec`. -/
theorem pcAnalyze_error_sentinel_witness :
    findPattern1 "2일 대비 5일".toList = none ∧
    findPattern2 "2일 대비 5일".toList = none ∧
    findPattern3 "2일 대비 5일".toList = some (2, 5) ∧
    pcAnalyze true []
        { ({} : FilterSpec) with
          comparison_periods := extractComparisonPeriods "2일 대비 5일" none } =
      pcErrorBundle "분석월을 선택해주세요" :=
  ⟨rfl, rfl, rfl,
   (pcAnalyze_error_sentinel "2일 대비 5일" 2 5 [] {} rfl rfl rfl).2⟩
